import Mathlib

/-!
Formal model of `main.py` (menu-driven Selenium scraper for Flipkart /
Amazon India / Snapdeal).

The source drives a real browser through Selenium and parses pages with
BeautifulSoup.  Those two libraries are external collaborators; the model
embeds the program's own logic shallowly:

* markup already parsed by BeautifulSoup is modelled as an element tree
  (`Elem` / `Soup`) exposing the query operations the source uses
  (`select`, `select_one`, attribute lookup, `get_text`);
* the browser is modelled as a `World` oracle supplying the page sources
  read at each point in time, the elements found for each next-button
  selector, and the interrupt signal;
* `time.sleep`, logging and printing are side effects with no bearing on
  the returned data and are dropped;
* Python truthiness on optional strings (`if title or price_txt`,
  `if a and a.get("href")`) is modelled by `truthyStr`.

Function and constant names follow the source (`looks_blocked`,
`first_match`, `parse_products_from_html`, `scrape_keyword_on_site_auto_resume`,
`save_to_csv`, `BLOCK_INDICATORS`, `SITES`).
-/

namespace Scraper

/-! ### Python string primitives used by the source -/

/-- Models Python `str.lower()`.  `Char.toLower` lowercases exactly the ASCII
range, which agrees with Python on the ASCII strings the program works with. -/
def pyLower (s : String) : String := ⟨s.data.map Char.toLower⟩

/-- Models Python's substring membership test `tok in hay` on character
lists: true iff `tok` occurs contiguously inside `hay`. -/
def subList (tok : List Char) : List Char → Bool
  | [] => tok.isPrefixOf []
  | c :: t => tok.isPrefixOf (c :: t) || subList tok (t)

/-- Models Python `tok in hay` on strings. -/
def strContainsSub (hay tok : String) : Bool := subList tok.data hay.data

/-- Models Python `s.startswith(pre)`. -/
def pyStartsWith (s pre : String) : Bool := pre.data.isPrefixOf s.data

/-- Replace the first occurrence of `old` inside a character list. -/
def replaceFirst (old new : List Char) : List Char → List Char
  | [] => []
  | c :: t =>
    if old.isPrefixOf (c :: t) then new ++ List.drop old.length (c :: t)
    else c :: replaceFirst old new t

/-- Models Python `template.format(q=sub)` for the URL templates of the
`SITES` table, each of which contains the placeholder `"{q}"` exactly
once. -/
def pyFormat_q (template sub : String) : String :=
  ⟨replaceFirst "{q}".data sub.data template.data⟩

/-- Split a character list on `'/'` (used to model URL decomposition). -/
def splitSlash : List Char → List (List Char)
  | [] => [[]]
  | c :: t =>
    let r := splitSlash t
    if c = '/' then [] :: r
    else
      match r with
      | [] => [[c]]
      | h :: rest => (c :: h) :: rest

/-! ### Block detector (`main.py` lines 67, 129–136) -/

/-- `BLOCK_INDICATORS` from `main.py` line 67. -/
def BLOCK_INDICATORS : List String :=
  ["captcha", "verify", "are you human", "access denied", "please verify",
   "sign in", "login", "blocked"]

/-- `looks_blocked` from `main.py` lines 129–136: empty text is never
blocked; otherwise lowercase the text and test each indicator for substring
membership, returning true at the first hit. -/
def looks_blocked (page_text : String) : Bool :=
  if page_text = "" then false
  else
    let low := pyLower page_text
    BLOCK_INDICATORS.any (fun token => strContainsSub low token)

/-! ### Parsed-markup model (BeautifulSoup collaborator boundary)

BeautifulSoup itself is an external library; the model works on the
already-parsed document.  An `Elem` records exactly what the source reads
from a bs4 tag: its attributes (`get`), its flattened visible text
(`get_text(" ", strip=True)`), and, for each CSS selector the source may
pass to `select_one`, the first matching descendant.  A `Soup` records, for
each selector passed to `select`, the list of matching elements in document
order. -/

inductive Elem where
  | node (attrs : List (String × String)) (txt : String)
         (sub : List (String × Elem))

/-- Models bs4 `tag.get(key)`: the attribute value, or `None` when absent. -/
def Elem.attr : Elem → String → Option String
  | .node attrs _ _, key => List.lookup key attrs

/-- Models bs4 `tag.get_text(" ", strip=True)`. -/
def Elem.get_text : Elem → String
  | .node _ txt _ => txt

/-- Models bs4 `tag.select_one(sel)`: first matching descendant or `None`. -/
def Elem.select_one : Elem → String → Option Elem
  | .node _ _ sub, sel => List.lookup sel sub

mutual
/-- Structural equality on parsed elements, as bs4 tag `==` compares
attributes and contents structurally (used by `b not in blocks`). -/
def Elem.beq : Elem → Elem → Bool
  | .node a t c, .node a' t' c' => a == a' && t == t' && beqSub c c'
def beqSub : List (String × Elem) → List (String × Elem) → Bool
  | [], [] => true
  | (s, e) :: r, (s', e') :: r' => s == s' && Elem.beq e e' && beqSub r r'
  | _, _ => false
end

instance : BEq Elem := ⟨Elem.beq⟩

/-- A parsed document: for each selector, all matches in document order. -/
structure Soup where
  sel_results : List (String × List Elem)

/-- Models bs4 `soup.select(sel)`. -/
def Soup.select (s : Soup) (sel : String) : List Elem :=
  (List.lookup sel s.sel_results).getD []

/-! ### Site profiles (`main.py` lines 33–64) -/

/-- One entry of the `SITES` table.  In the source each entry is a dict;
note the dict literals write the `"name"` key twice (display name, then
selector list) so the selector list is what the dict actually holds. -/
structure SiteCfg where
  id : String
  url : String
  product_block : List String
  name : List String
  price : List String
  rating : List String
  next_button : List String

/-- `SITES["1"]` (Flipkart). -/
def SITES_1 : SiteCfg :=
  { id := "flipkart"
    url := "https://www.flipkart.com/search?q={q}"
    product_block := ["div._2kHMtA", "div._1AtVbE._13oc-S"]
    name := ["div._4rR01T", "a.s1Q9rs"]
    price := ["div._30jeq3", "div._25b18c"]
    rating := ["div._3LWZlK"]
    next_button := ["a._1LKTO3", "a._1GTrmS"] }

/-- `SITES["2"]` (Amazon India). -/
def SITES_2 : SiteCfg :=
  { id := "amazon_in"
    url := "https://www.amazon.in/s?k={q}"
    product_block := ["div.s-result-item[data-component-type='s-search-result']"]
    name := ["h2 a span"]
    price := ["span.a-price > span.a-offscreen"]
    rating := ["span.a-icon-alt"]
    next_button := ["a.s-pagination-next"] }

/-- `SITES["3"]` (Snapdeal). -/
def SITES_3 : SiteCfg :=
  { id := "snapdeal"
    url := "https://www.snapdeal.com/search?keyword={q}"
    product_block := ["div.product-tuple-listing"]
    name := ["p.product-title", "a.dp-widget-link"]
    price := ["span.product-price"]
    rating := ["div.hotnessStars"]
    next_button := ["a[data-page]"] }

/-! ### Extractor (`main.py` lines 142–185) -/

/-- `first_match` from `main.py` lines 142–147: try the selector candidates
in declared order, return the first hit. -/
def first_match (block : Elem) : List String → Option Elem
  | [] => none
  | sel :: rest =>
    match block.select_one sel with
    | some el => some el
    | none => first_match block rest

/-- Lines 152–158: union of `soup.select` results over the
`product_block` candidates, preserving first-seen order and dropping
duplicates (`if b not in blocks`). -/
def collect_blocks (soup : Soup) (sels : List String) : List Elem :=
  sels.foldl (fun blocks sel =>
    (soup.select sel).foldl
      (fun blocks b => if blocks.contains b then blocks else blocks ++ [b])
      blocks) []

/-- Python truthiness of an optional string: `None` and `""` are falsy. -/
def truthyStr : Option String → Bool
  | none => false
  | some s => s != ""

/-- The scheme-plus-authority part of a URL, e.g.
`"https://www.flipkart.com"` out of `"https://www.flipkart.com/search?q="`. -/
def base_origin (base : String) : String :=
  match splitSlash base.data with
  | scheme :: _ :: host :: _ => (⟨scheme⟩ : String) ++ "//" ++ (⟨host⟩ : String)
  | _ => base

/-- Modelled from the spec: `urllib.parse.urljoin` is Python standard
library, not part of this repository.  The source only applies it to a
root-relative href (`/...`), where the spec states the result is the href
"resolved against the site's base origin". -/
def urljoin (base href : String) : String := base_origin base ++ href

/-- Lines 169–175: href normalisation.  Protocol-relative hrefs get an
`https:` scheme; root-relative hrefs are joined to the base built from the
config's URL template with the query substitution left empty
(`cfg.get("url", "https://")` then `base.format(q="")`); anything else is
returned unchanged. -/
def resolve_href (cfg : SiteCfg) (href : String) : String :=
  if pyStartsWith href "//" then "https:" ++ href
  else if pyStartsWith href "/" then
    urljoin (pyFormat_q cfg.url "") href
  else href

/-- One extracted row (lines 179–184). -/
structure ProductRecord where
  product_name : Option String
  price : Option String
  rating : Option String
  product_url : Option String
deriving DecidableEq, Repr

/-- Line 164, the Python local `title`: prefer a truthy `title` attribute
on the matched name element, fall back to its visible text, and stay
`None` when no name element matched. -/
def block_title (cfg : SiteCfg) (b : Elem) : Option String :=
  match first_match b cfg.name with
  | none => none
  | some el =>
    match el.attr "title" with
    | some t => if t != "" then some t else some el.get_text
    | none => some el.get_text

/-- Lines 165–175, the Python local `href`: the first anchor's truthy href,
normalised by `resolve_href`; `None` when there is no anchor or its href is
falsy. -/
def block_href (cfg : SiteCfg) (b : Elem) : Option String :=
  match b.select_one "a" with
  | none => none
  | some a =>
    match a.attr "href" with
    | none => none
    | some h => if h != "" then some (resolve_href cfg h) else none

/-- Line 176, the Python local `price_txt`. -/
def block_price (cfg : SiteCfg) (b : Elem) : Option String :=
  (first_match b cfg.price).map Elem.get_text

/-- Line 177, the Python local `rating_txt`. -/
def block_rating (cfg : SiteCfg) (b : Elem) : Option String :=
  (first_match b cfg.rating).map Elem.get_text

/-- Lines 160–184 for a single container `b`: emit the record only when
`title or price_txt` is truthy (lines 178–184). -/
def parse_block (cfg : SiteCfg) (b : Elem) : Option ProductRecord :=
  if truthyStr (block_title cfg b) || truthyStr (block_price cfg b) then
    some { product_name := block_title cfg b, price := block_price cfg b,
           rating := block_rating cfg b, product_url := block_href cfg b }
  else
    none

/-- `parse_products_from_html` from lines 150–185.  The BeautifulSoup
parsing step `BeautifulSoup(html, "lxml")` is the collaborator boundary:
the function receives the parsed `Soup` in place of the raw markup
string. -/
def parse_products_from_html (soup : Soup) (cfg : SiteCfg) : List ProductRecord :=
  (collect_blocks soup cfg.product_block).filterMap (parse_block cfg)

/-! ### Resume coordinator and pagination driver (`main.py` lines 191–302)

The Selenium driver is the external collaborator.  A `World` oracle fixes
every observation the session makes through it: the page source read after
the initial navigation (line 210), the page source read at each tick of the
intervention wait loop (line 234), whether a `KeyboardInterrupt` arrives
during a given tick, the page source re-read after the wait (line 250), the
parsed document of each pagination page (line 263), and the elements found
for each next-button selector on each page (line 272). -/

/-- Observable behaviour of one element found for a next-button selector
(`main.py` lines 273–285).  `interactErr` covers the `except` path:
`is_displayed()` or `click()` raised, `get_attribute("href")` returned
`href`, and — when `href` is truthy — `driver.get(href)` succeeded iff
`navOk`.  `attrRaise` is the case where `get_attribute` itself raised,
which propagates to the per-selector handler (line 289). -/
inductive NodeBeh where
  | displayedClickOk
  | notDisplayed
  | interactErr (href : Option String) (navOk : Bool)
  | attrRaise
deriving DecidableEq, Repr

/-- A page-advancing interaction actually performed: a successful click or
a successful direct navigation to an href. -/
inductive AdvanceEvt where
  | clicked
  | navigated (href : String)
deriving DecidableEq, Repr

/-- Walk the elements found for one next-button selector (lines 273–285):
stop with an advance at the first displayed clickable element or the first
raising element with a truthy navigable href; skip hidden elements and
raising elements without a truthy href; abandon the selector when an
exception escapes the per-element handler.  Returns the advances performed
and the final `clicked` flag. -/
def run_nodes : List NodeBeh → List AdvanceEvt × Bool
  | [] => ([], false)
  | .displayedClickOk :: _ => ([.clicked], true)
  | .notDisplayed :: rest => run_nodes rest
  | .attrRaise :: _ => ([], false)
  | .interactErr none _ :: rest => run_nodes rest
  | .interactErr (some h) navOk :: rest =>
    if h != "" then
      if navOk then ([.navigated h], true) else ([], false)
    else run_nodes rest

/-- Lines 269–290: try each `next_button` selector candidate in order;
`find sel = none` models `find_elements` raising (swallowed by the
per-selector `except`).  Stops at the first candidate whose elements yield
an advance. -/
def attempt_next (find : String → Option (List NodeBeh)) :
    List String → List AdvanceEvt × Bool
  | [] => ([], false)
  | sel :: rest =>
    match find sel with
    | none => attempt_next find rest
    | some nodes =>
      let r := run_nodes nodes
      if r.2 then (r.1, true)
      else
        let r' := attempt_next find rest
        (r.1 ++ r'.1, r'.2)

/-- The browser oracle: every observation one session can make. -/
structure World where
  initial_src : String
  wait_src : Nat → String
  interrupt : Nat → Bool
  post_wait_src : String
  page_soup : Nat → Soup
  find_next : Nat → String → Option (List NodeBeh)

/-- Why the intervention wait loop exited. -/
inductive WaitReason where
  | ceiling
  | containerFound
  | interrupted
deriving DecidableEq, Repr

/-- Outcome of the intervention wait loop: how many 2-second sleeps ran,
and which exit condition fired. -/
structure WaitResult where
  ticks : Nat
  reason : WaitReason
deriving DecidableEq, Repr

/-- Line 236–237's early-resume check: some `product_block` selector string
literally occurs in the raw page source. -/
def container_text_present (cfg : SiteCfg) (src : String) : Bool :=
  cfg.product_block.any (fun psel => strContainsSub src psel)

/-- The poll loop of lines 230–243, starting from tick `k` (Python's
`waited = 2 * k`): while `waited < manual_timeout`, sleep 2 seconds
(tick `k`, during which a `KeyboardInterrupt` may arrive — lines 245–248),
re-read the page source, and exit early when a `product_block` selector
occurs in it. -/
def wait_go (cfg : SiteCfg) (world : World) (manual_timeout : Nat)
    (k : Nat) : WaitResult :=
  if 2 * k < manual_timeout then
    if world.interrupt k then ⟨k, .interrupted⟩
    else if container_text_present cfg (world.wait_src k) then
      ⟨k + 1, .containerFound⟩
    else wait_go cfg world manual_timeout (k + 1)
  else ⟨k, .ceiling⟩
termination_by manual_timeout - 2 * k
decreasing_by omega

/-- The whole intervention wait (lines 219–248). -/
def wait_for_human (cfg : SiteCfg) (world : World) (manual_timeout : Nat) :
    WaitResult :=
  wait_go cfg world manual_timeout 0

/-- What one run of `scrape_keyword_on_site_auto_resume` returns, plus the
observable session counters: how many pages the pagination loop parsed and
how many wait-loop ticks elapsed. -/
structure SessionResult where
  collected : List ProductRecord
  pagesParsed : Nat
  waitTicks : Nat
deriving DecidableEq, Repr

/-- The pagination loop of lines 258–294 from `current_page` upward:
scroll (external), parse the current page, extend `collected`, attempt an
advance, and stop on budget exhaustion or failed advance.  Returns the
accumulated records and the number of pages parsed. -/
def paginate_go (cfg : SiteCfg) (world : World) (pages : Nat)
    (current_page : Nat) (acc : List ProductRecord) :
    List ProductRecord × Nat :=
  if current_page < pages then
    let items := parse_products_from_html (world.page_soup current_page) cfg
    let acc' := acc ++ items
    let adv := attempt_next (world.find_next current_page) cfg.next_button
    if adv.2 then paginate_go cfg world pages (current_page + 1) acc'
    else (acc', current_page + 1)
  else (acc, current_page)
termination_by pages - current_page
decreasing_by omega

/-- The pagination driver (lines 257–294). -/
def paginate (cfg : SiteCfg) (world : World) (pages : Nat) :
    List ProductRecord × Nat :=
  paginate_go cfg world pages 0 []

/-- `scrape_keyword_on_site_auto_resume` (lines 191–302), with navigation,
scrolling, popup dismissal, sleeps, logging and debug-file writes — all
driver side effects — elided.  If the first page source looks blocked, run
the intervention wait, re-read the page, and abort with an empty record
list if it still looks blocked; otherwise (and when never blocked) run the
pagination driver. -/
def scrape_keyword_on_site_auto_resume (cfg : SiteCfg) (pages : Nat)
    (manual_timeout : Nat) (world : World) : SessionResult :=
  if looks_blocked world.initial_src then
    let wr := wait_for_human cfg world manual_timeout
    if looks_blocked world.post_wait_src then
      { collected := [], pagesParsed := 0, waitTicks := wr.ticks }
    else
      let r := paginate cfg world pages
      { collected := r.1, pagesParsed := r.2, waitTicks := wr.ticks }
  else
    let r := paginate cfg world pages
    { collected := r.1, pagesParsed := r.2, waitTicks := 0 }

/-- The default `manual_timeout` (line 191), also what `main` passes
(line 360). -/
def manual_timeout_default : Nat := 300

/-! ### CSV sink (`main.py` lines 308–315) -/

/-- The fixed header row of `save_to_csv` (line 309). -/
def csv_headers : List String :=
  ["product_name", "price", "rating", "product_url"]

/-- `csv.DictWriter` renders an absent (`None`) field as an empty cell. -/
def csvCell : Option String → String
  | none => ""
  | some s => s

/-- Line 314: the data row written for one record — `it.get(h)` for each
header, in header order. -/
def record_row (it : ProductRecord) : List String :=
  [csvCell it.product_name, csvCell it.price, csvCell it.rating,
   csvCell it.product_url]

/-- `save_to_csv` (lines 308–315) as the grid of cells it writes: the
header row, then one row per record.  Opening and writing the file is the
I/O boundary. -/
def save_to_csv (items : List ProductRecord) : List (List String) :=
  csv_headers :: items.map record_row

/-! ### Outer boundary (`main.py` lines 332–371)

`scrape_keyword_on_site_auto_resume` wraps its body in `try`/`finally`
(lines 196, 298–302): the driver is quit on every exit path, but there is
no `except`, so an unexpected fault propagates to the caller after the
cleanup.  `main` calls the session at line 360 outside any `try`. -/

/-- A fault raised inside the session body that none of the local handlers
catches. -/
inductive Fault where
  | unexpected (message : String)
deriving DecidableEq, Repr

/-- The `try`/`finally` of lines 196–302 around a session body that either
returns a result or raises: the driver is released either way, and the
body's outcome (value or fault) passes through unchanged. -/
def session_with_cleanup (body : Except Fault SessionResult) :
    Bool × Except Fault SessionResult :=
  (true, body)

/-- What the operator observes from the tail of `main` (lines 360–371). -/
structure MainOutcome where
  browser_released : Bool
  csv_written : Option (List (List String))
  message : Option String
  unhandled : Option Fault
deriving Repr

/-- Lines 360–371 of `main`, given the outcome of the session call: the
call is not wrapped in a `try`, so a fault skips `save_to_csv` and the
result message and leaves `main` as an unhandled fault; a normal return
always writes the CSV and prints either a success count or the
"No items scraped" message. -/
def main_tail (session : Except Fault SessionResult) : MainOutcome :=
  let run := session_with_cleanup session
  match run.2 with
  | .error f =>
    { browser_released := run.1, csv_written := none,
      message := none, unhandled := some f }
  | .ok res =>
    { browser_released := run.1
      csv_written := some (save_to_csv res.collected)
      message := some (if res.collected.length != 0 then "saved" else "No items scraped")
      unhandled := none }

/-! ### Concrete fixtures (small inputs used to instantiate the theorems) -/

/-- A minimal site descriptor (selector strings are arbitrary labels). -/
def Wcfg : SiteCfg :=
  ⟨"s", "https://h/s?q={q}", ["c"], ["n"], ["p"], ["r"], ["x", "y"]⟩

def WnmA : Elem := .node [] "Shoe A" []

def WprA : Elem := .node [] "999" []

def WanA : Elem := .node [("href", "/x/y")] "" []

/-- Container with a name, a price and a root-relative anchor. -/
def We1 : Elem := .node [] "" [("n", WnmA), ("p", WprA), ("a", WanA)]

def WnmB : Elem := .node [] "Shoe B" []

/-- Container with only a name. -/
def We2 : Elem := .node [] "" [("n", WnmB)]

/-- Container in which no field selector matches at all. -/
def We0 : Elem := .node [] "noise" []

def WnmE : Elem := .node [] "" []

/-- Container whose name element has empty text, no title attribute, and
no price. -/
def We3 : Elem := .node [] "" [("n", WnmE)]

def Wsoup : Soup := ⟨[("c", [We1, We2])]⟩

/-- The record `We1` extracts to under `Wcfg`. -/
def Wrec1 : ProductRecord :=
  ⟨some "Shoe A", some "999", none, some "https://h/x/y"⟩

/-- Site descriptor for the session fixtures; its container selector is not
a substring of the blocked page text below. -/
def Wcfg2 : SiteCfg :=
  ⟨"s", "https://h/s?q={q}", ["div.item"], ["n"], ["p"], ["r"], ["x"]⟩

/-- A world that is blocked before and after the wait, never shows product
container text, is never interrupted, and offers no next-page control. -/
def Wworld1 : World :=
  { initial_src := "captcha"
    wait_src := fun _ => "captcha"
    interrupt := fun _ => false
    post_wait_src := "captcha"
    page_soup := fun _ => Wsoup
    find_next := fun _ _ => some [] }

/-- A world that is never blocked but whose next-page lookups find
nothing clickable or navigable. -/
def Wworld2 : World :=
  { initial_src := "two products"
    wait_src := fun _ => "two products"
    interrupt := fun _ => false
    post_wait_src := "two products"
    page_soup := fun _ => Wsoup
    find_next := fun _ _ => some [.notDisplayed, .interactErr none true] }

/-- A next-button element lookup with one clickable hit for selector
`"x"`. -/
def Wfind : String → Option (List NodeBeh) :=
  fun s => if s = "x" then some [.displayedClickOk] else some []

/-! ## Helper lemmas -/

/-- `List.isPrefixOf` decides `<+:` (specialised to `Char`). -/
theorem isPrefixOf_iff_prefix (p s : List Char) :
    p.isPrefixOf s = true ↔ p <+: s := by
  induction p generalizing s with
  | nil => simp
  | cons a p ih =>
    cases s with
    | nil =>
      rw [List.isPrefixOf_cons_nil]
      simp
    | cons b t =>
      simp [List.isPrefixOf_cons₂, List.cons_prefix_cons, ih]

/-- `subList` decides the infix (contiguous substring) relation. -/
theorem subList_iff (tok hay : List Char) :
    subList tok hay = true ↔ tok <:+: hay := by
  induction hay with
  | nil =>
    simp [subList, isPrefixOf_iff_prefix, List.infix_nil, List.prefix_nil]
  | cons c t ih =>
    simp [subList, isPrefixOf_iff_prefix, ih, List.infix_cons_iff]

/-- Every configured indicator phrase is a non-empty string. -/
theorem BLOCK_INDICATORS_ne_nil : ∀ tok ∈ BLOCK_INDICATORS, tok.data ≠ [] := by
  decide

/-- Python truthiness of an optional string, unfolded. -/
theorem truthyStr_iff (o : Option String) :
    truthyStr o = true ↔ ∃ s, o = some s ∧ s ≠ "" := by
  cases o with
  | none => simp [truthyStr]
  | some s => simp [truthyStr]

/-- A record comes out of `parse_block` only with a truthy name or a
truthy price. -/
theorem parse_block_some_truthy (cfg : SiteCfg) (b : Elem) (r : ProductRecord)
    (h : parse_block cfg b = some r) :
    (truthyStr r.product_name || truthyStr r.price) = true := by
  unfold parse_block at h
  split at h
  · rename_i hc
    injection h with h
    subst h
    exact hc
  · exact absurd h (by simp)

/-- The fields of a record emitted by `parse_block`. -/
theorem parse_block_some_fields (cfg : SiteCfg) (b : Elem) (r : ProductRecord)
    (h : parse_block cfg b = some r) :
    r.product_name = block_title cfg b ∧ r.price = block_price cfg b
    ∧ r.rating = block_rating cfg b ∧ r.product_url = block_href cfg b := by
  unfold parse_block at h
  split at h
  · injection h with h
    subst h
    exact ⟨rfl, rfl, rfl, rfl⟩
  · exact absurd h (by simp)

/-- Invariants of the poll loop: the tick count stays below the ceiling
(plus the final partial step), and each exit reason certifies its exit
condition — ceiling reached, container text seen on the last tick read, or
an interrupt during the tick after the last completed one. -/
theorem wait_go_spec (cfg : SiteCfg) (world : World) (timeout : Nat) :
    ∀ k : Nat, 2 * k ≤ timeout + 1 →
      (2 * (wait_go cfg world timeout k).ticks ≤ timeout + 1)
      ∧ ((wait_go cfg world timeout k).reason = .ceiling →
          timeout ≤ 2 * (wait_go cfg world timeout k).ticks)
      ∧ ((wait_go cfg world timeout k).reason = .containerFound →
          ∃ j, (wait_go cfg world timeout k).ticks = j + 1
            ∧ container_text_present cfg (world.wait_src j) = true)
      ∧ ((wait_go cfg world timeout k).reason = .interrupted →
          world.interrupt (wait_go cfg world timeout k).ticks = true) := by
  intro k
  induction k using wait_go.induct cfg world timeout with
  | case1 x hlt hint =>
    intro _
    rw [wait_go, if_pos hlt, if_pos hint]
    exact ⟨show 2 * x ≤ timeout + 1 by omega, by simp, by simp, fun _ => hint⟩
  | case2 x hlt hint hcont =>
    intro _
    rw [wait_go, if_pos hlt, if_neg hint, if_pos hcont]
    exact ⟨show 2 * (x + 1) ≤ timeout + 1 by omega, by simp,
      fun _ => ⟨x, rfl, hcont⟩, by simp⟩
  | case3 x hlt hint hcont ih =>
    intro _
    rw [wait_go, if_pos hlt, if_neg hint, if_neg hcont]
    exact ih (by omega)
  | case4 x hge =>
    intro hk
    rw [wait_go, if_neg hge]
    exact ⟨hk, fun _ => show timeout ≤ 2 * x by omega, by simp, by simp⟩

/-- Scanning one selector's elements performs at most one advance, and none
at all when the scan ends without setting `clicked`. -/
theorem run_nodes_spec (ns : List NodeBeh) :
    (run_nodes ns).1.length ≤ 1
    ∧ ((run_nodes ns).2 = false → (run_nodes ns).1 = []) := by
  induction ns with
  | nil => simp [run_nodes]
  | cons n rest ih =>
    cases n with
    | displayedClickOk => simp [run_nodes]
    | notDisplayed => simpa [run_nodes] using ih
    | attrRaise => simp [run_nodes]
    | interactErr href navOk =>
      cases href with
      | none => simpa [run_nodes] using ih
      | some h =>
        by_cases hh : h = ""
        · simpa [run_nodes, hh] using ih
        · cases navOk <;> simp [run_nodes, hh]

/-- The advance search over all candidates performs at most one advance,
and none when it fails. -/
theorem attempt_next_spec (find : String → Option (List NodeBeh)) :
    ∀ sels : List String,
      (attempt_next find sels).1.length ≤ 1
      ∧ ((attempt_next find sels).2 = false → (attempt_next find sels).1 = []) := by
  intro sels
  induction sels with
  | nil => simp [attempt_next]
  | cons sel rest ih =>
    cases hfs : find sel with
    | none => simpa [attempt_next, hfs] using ih
    | some ns =>
      cases hrun : (run_nodes ns).2 with
      | true =>
        simp [attempt_next, hfs, hrun]
        exact (run_nodes_spec ns).1
      | false =>
        have hnil := (run_nodes_spec ns).2 hrun
        simp [attempt_next, hfs, hrun, hnil]
        exact ih

/-- Once some candidate prefix already advances, the candidates after it
are never examined. -/
theorem attempt_next_stops_at_first (find : String → Option (List NodeBeh))
    (s1 s2 : List String) (h : (attempt_next find s1).2 = true) :
    attempt_next find (s1 ++ s2) = attempt_next find s1 := by
  induction s1 with
  | nil => simp [attempt_next] at h
  | cons sel rest ih =>
    cases hfs : find sel with
    | none =>
      rw [attempt_next] at h
      rw [hfs] at h
      simp only [List.cons_append, attempt_next, hfs]
      exact ih h
    | some ns =>
      cases hrun : (run_nodes ns).2 with
      | true => simp [attempt_next, hfs, hrun]
      | false =>
        rw [attempt_next] at h
        rw [hfs] at h
        simp only [hrun, if_neg] at h
        simp only [Bool.false_eq_true, if_false] at h
        simp only [List.cons_append, attempt_next, hfs, hrun,
          Bool.false_eq_true, if_false, List.append_eq, ih h]

/-! ## Claims -/

/-- C7: `looks_blocked` is a pure, case-insensitive substring membership
test of the page text against `BLOCK_INDICATORS`: it returns true iff some
configured phrase occurs in the lowercased text, and false for empty text;
in particular `"Please Verify you are human"` and
`"please verify you are human"` both detect as blocked, and a text
containing none of the phrases does not. -/
theorem C7_block_detector_contract :
    (∀ text : String,
        looks_blocked text = true ↔
          ∃ tok ∈ BLOCK_INDICATORS, tok.data <:+: (pyLower text).data)
    ∧ looks_blocked "Please Verify you are human" = true
    ∧ looks_blocked "please verify you are human" = true
    ∧ looks_blocked "All products in stock at great prices" = false
    ∧ looks_blocked "" = false := by
  refine ⟨fun text => ?_, by decide, by decide, by decide, rfl⟩
  by_cases h : text = ""
  · subst h
    rw [show looks_blocked "" = false from rfl]
    simp only [Bool.false_eq_true, false_iff]
    rintro ⟨tok, htok, hinf⟩
    rw [show (pyLower "").data = [] from rfl, List.infix_nil] at hinf
    exact BLOCK_INDICATORS_ne_nil tok htok hinf
  · simp [looks_blocked, h, strContainsSub, subList_iff, List.any_eq_true]

/-- C3: every record the extractor returns has a name or a price that is
not `None`, and a container in which neither a name nor a price element is
found produces no record. -/
theorem C3_inclusion_invariant :
    (∀ (soup : Soup) (cfg : SiteCfg),
        ∀ r ∈ parse_products_from_html soup cfg,
          r.product_name ≠ none ∨ r.price ≠ none)
    ∧ (∀ (cfg : SiteCfg) (b : Elem),
        first_match b cfg.name = none → first_match b cfg.price = none →
        parse_block cfg b = none) := by
  constructor
  · intro soup cfg r hr
    obtain ⟨b, _, hpb⟩ := List.mem_filterMap.mp hr
    have := parse_block_some_truthy cfg b r hpb
    rcases Bool.or_eq_true_iff.mp this with ht | ht
    · obtain ⟨s, hs, _⟩ := (truthyStr_iff _).mp ht
      exact Or.inl (by simp [hs])
    · obtain ⟨s, hs, _⟩ := (truthyStr_iff _).mp ht
      exact Or.inr (by simp [hs])
  · intro cfg b hn hp
    simp [parse_block, block_title, block_price, hn, hp, truthyStr]

/-- C3 witness: a concrete record of the fixture extraction, and the
fixture container matching no selectors. -/
theorem C3_witness :
    (Wrec1.product_name ≠ none ∨ Wrec1.price ≠ none)
    ∧ parse_block Wcfg We0 = none :=
  ⟨C3_inclusion_invariant.1 Wsoup Wcfg Wrec1 (by decide),
   C3_inclusion_invariant.2 Wcfg We0 rfl rfl⟩

/-- C10: emission is gated on Python truthiness, so every emitted record
has a non-empty name string or a non-empty price string; a container whose
matched name element has empty text (and no truthy `title` attribute) and
no price is dropped — strictly stronger than C3's not-`None` invariant. -/
theorem C10_truthiness_gating :
    (∀ (soup : Soup) (cfg : SiteCfg),
        ∀ r ∈ parse_products_from_html soup cfg,
          (∃ s, r.product_name = some s ∧ s ≠ "")
          ∨ (∃ s, r.price = some s ∧ s ≠ ""))
    ∧ (∀ (cfg : SiteCfg) (b : Elem) (el : Elem),
        first_match b cfg.name = some el →
        el.get_text = "" →
        (el.attr "title" = none ∨ el.attr "title" = some "") →
        first_match b cfg.price = none →
        parse_block cfg b = none) := by
  constructor
  · intro soup cfg r hr
    obtain ⟨b, _, hpb⟩ := List.mem_filterMap.mp hr
    have := parse_block_some_truthy cfg b r hpb
    rcases Bool.or_eq_true_iff.mp this with ht | ht
    · exact Or.inl ((truthyStr_iff _).mp ht)
    · exact Or.inr ((truthyStr_iff _).mp ht)
  · intro cfg b el hn htxt hattr hp
    have hb : block_title cfg b = some "" := by
      rcases hattr with hattr | hattr <;> simp [block_title, hn, hattr, htxt]
    have hp' : block_price cfg b = none := by simp [block_price, hp]
    simp [parse_block, hb, hp', truthyStr]

/-- C10 witness: a concrete record of the fixture extraction, and the
fixture container with an empty-text name and no price. -/
theorem C10_witness :
    ((∃ s, Wrec1.product_name = some s ∧ s ≠ "")
      ∨ (∃ s, Wrec1.price = some s ∧ s ≠ ""))
    ∧ parse_block Wcfg We3 = none :=
  ⟨C10_truthiness_gating.1 Wsoup Wcfg Wrec1 (by decide),
   C10_truthiness_gating.2 Wcfg We3 WnmE rfl rfl (Or.inl rfl) rfl⟩

/-- C6: href normalisation — protocol-relative hrefs get `https:`
prefixed, root-relative hrefs are joined to the base origin derived from
the URL template with the query substitution left empty, anything else is
returned unchanged; and an emitted record's `product_url` is the
normalisation of the container's first anchor's truthy href. -/
theorem C6_url_resolution :
    (∀ (cfg : SiteCfg) (h : String),
        (pyStartsWith h "//" = true → resolve_href cfg h = "https:" ++ h)
        ∧ (pyStartsWith h "//" = false → pyStartsWith h "/" = true →
            resolve_href cfg h = base_origin (pyFormat_q cfg.url "") ++ h)
        ∧ (pyStartsWith h "//" = false → pyStartsWith h "/" = false →
            resolve_href cfg h = h))
    ∧ (∀ (cfg : SiteCfg) (b : Elem) (r : ProductRecord) (a : Elem)
          (h : String),
        parse_block cfg b = some r →
        b.select_one "a" = some a →
        a.attr "href" = some h →
        h ≠ "" →
        r.product_url = some (resolve_href cfg h)) := by
  constructor
  · intro cfg h
    refine ⟨fun h2 => ?_, fun h2 h1 => ?_, fun h2 h1 => ?_⟩
    · simp [resolve_href, h2]
    · simp [resolve_href, h2, h1, urljoin]
    · simp [resolve_href, h2, h1]
  · intro cfg b r a h hpb hsel hattr hne
    have hf := (parse_block_some_fields cfg b r hpb).2.2.2
    rw [hf]
    simp [block_href, hsel, hattr, hne]

/-- C6 witness: the three normalisation shapes on the spec's example hrefs
and the fixture record's emitted URL. -/
theorem C6_witness :
    resolve_href Wcfg "//x/y" = "https:" ++ "//x/y"
    ∧ resolve_href Wcfg "/x/y" = base_origin (pyFormat_q Wcfg.url "") ++ "/x/y"
    ∧ resolve_href Wcfg "https://other/z" = "https://other/z"
    ∧ Wrec1.product_url = some (resolve_href Wcfg "/x/y") :=
  ⟨(C6_url_resolution.1 Wcfg "//x/y").1 (by decide),
   (C6_url_resolution.1 Wcfg "/x/y").2.1 (by decide) (by decide),
   (C6_url_resolution.1 Wcfg "https://other/z").2.2 (by decide) (by decide),
   C6_url_resolution.2 Wcfg We1 Wrec1 WanA "/x/y" (by decide) rfl rfl
     (by decide)⟩

/-- C8: the written grid always has the header row first, exactly four
columns in the fixed order, one data row per record placed in order, and a
headers-only grid for zero records. -/
theorem C8_csv_shape :
    (∀ items : List ProductRecord,
        (save_to_csv items).head? = some csv_headers
        ∧ (save_to_csv items).length = items.length + 1
        ∧ (∀ row ∈ save_to_csv items, row.length = 4)
        ∧ (∀ i : Nat, (save_to_csv items)[i + 1]? = items[i]?.map record_row))
    ∧ save_to_csv [] = [csv_headers]
    ∧ csv_headers = ["product_name", "price", "rating", "product_url"] := by
  refine ⟨fun items => ⟨rfl, by simp [save_to_csv], ?_, ?_⟩, rfl, rfl⟩
  · intro row hrow
    rcases List.mem_cons.mp hrow with h | h
    · simp [h, csv_headers]
    · obtain ⟨it, _, hit⟩ := List.mem_map.mp h
      simp [← hit, record_row]
  · intro i
    simp [save_to_csv]

/-- C8 witness: the grid for the two-record fixture extraction and for the
empty record list. -/
theorem C8_witness :
    (save_to_csv [Wrec1]).head? = some csv_headers
    ∧ (save_to_csv [Wrec1]).length = 2
    ∧ (∀ row ∈ save_to_csv [Wrec1], row.length = 4)
    ∧ (save_to_csv [Wrec1])[1]? = some (record_row Wrec1)
    ∧ save_to_csv [] = [csv_headers] :=
  ⟨(C8_csv_shape.1 [Wrec1]).1,
   (C8_csv_shape.1 [Wrec1]).2.1,
   (C8_csv_shape.1 [Wrec1]).2.2.1,
   by simpa using (C8_csv_shape.1 [Wrec1]).2.2.2 0,
   C8_csv_shape.2.1⟩

/-- C1: a session whose page still looks blocked after the intervention
wait returns an empty record sequence and parses no page (fail-safe: no
pagination or extraction against a still-blocked page). -/
theorem C1_still_blocked_aborts (cfg : SiteCfg) (pages manual_timeout : Nat)
    (world : World)
    (h1 : looks_blocked world.initial_src = true)
    (h2 : looks_blocked world.post_wait_src = true) :
    (scrape_keyword_on_site_auto_resume cfg pages manual_timeout world).collected = []
    ∧ (scrape_keyword_on_site_auto_resume cfg pages manual_timeout world).pagesParsed
        = 0 := by
  simp [scrape_keyword_on_site_auto_resume, h1, h2]

/-- C1 witness: the fixture world that is blocked before and after the
wait. -/
theorem C1_witness :
    (scrape_keyword_on_site_auto_resume Wcfg2 2 300 Wworld1).collected = []
    ∧ (scrape_keyword_on_site_auto_resume Wcfg2 2 300 Wworld1).pagesParsed = 0 :=
  C1_still_blocked_aborts Wcfg2 2 300 Wworld1 (by decide) (by decide)

/-- C2: the wait loop polls on a fixed 2-second tick and always exits with
one of the three conditions — ceiling reached, container selector text
present in the markup read that tick, or an external interrupt — never
exceeding the ceiling by more than one partial tick; hence when the block
persists with no container text and no interrupt, the loop runs to the
ceiling and the session returns an empty sequence in bounded time. -/
theorem C2_wait_termination (cfg : SiteCfg) (world : World)
    (manual_timeout pages : Nat)
    (hb1 : looks_blocked world.initial_src = true)
    (hni : ∀ k, world.interrupt k = false)
    (hnc : ∀ k, container_text_present cfg (world.wait_src k) = false)
    (hb2 : looks_blocked world.post_wait_src = true) :
    (∀ (w : World) (t : Nat),
        2 * (wait_for_human cfg w t).ticks ≤ t + 1
        ∧ ((wait_for_human cfg w t).reason = .ceiling →
            t ≤ 2 * (wait_for_human cfg w t).ticks)
        ∧ ((wait_for_human cfg w t).reason = .containerFound →
            ∃ j, (wait_for_human cfg w t).ticks = j + 1
              ∧ container_text_present cfg (w.wait_src j) = true)
        ∧ ((wait_for_human cfg w t).reason = .interrupted →
            w.interrupt (wait_for_human cfg w t).ticks = true))
    ∧ (wait_for_human cfg world manual_timeout).reason = .ceiling
    ∧ manual_timeout ≤ 2 * (wait_for_human cfg world manual_timeout).ticks
    ∧ 2 * (wait_for_human cfg world manual_timeout).ticks ≤ manual_timeout + 1
    ∧ scrape_keyword_on_site_auto_resume cfg pages manual_timeout world
        = ⟨[], 0, (wait_for_human cfg world manual_timeout).ticks⟩ := by
  have hgen : ∀ (w : World) (t : Nat),
      2 * (wait_for_human cfg w t).ticks ≤ t + 1
      ∧ ((wait_for_human cfg w t).reason = .ceiling →
          t ≤ 2 * (wait_for_human cfg w t).ticks)
      ∧ ((wait_for_human cfg w t).reason = .containerFound →
          ∃ j, (wait_for_human cfg w t).ticks = j + 1
            ∧ container_text_present cfg (w.wait_src j) = true)
      ∧ ((wait_for_human cfg w t).reason = .interrupted →
          w.interrupt (wait_for_human cfg w t).ticks = true) := by
    intro w t
    exact wait_go_spec cfg w t 0 (by omega)
  have hw := hgen world manual_timeout
  have hreason : (wait_for_human cfg world manual_timeout).reason = .ceiling := by
    cases hr : (wait_for_human cfg world manual_timeout).reason with
    | ceiling => rfl
    | containerFound =>
      obtain ⟨j, _, hc⟩ := hw.2.2.1 hr
      rw [hnc j] at hc
      cases hc
    | interrupted =>
      have hi := hw.2.2.2 hr
      rw [hni _] at hi
      cases hi
  refine ⟨hgen, hreason, hw.2.1 hreason, hw.1, ?_⟩
  simp [scrape_keyword_on_site_auto_resume, hb1, hb2, wait_for_human]

/-- C2 witness: the persistently blocked fixture world with a 5-second
ceiling runs to the ceiling (3 ticks, 6 seconds slept) and yields the
empty session. -/
theorem C2_witness :
    (wait_for_human Wcfg2 Wworld1 5).reason = .ceiling
    ∧ 5 ≤ 2 * (wait_for_human Wcfg2 Wworld1 5).ticks
    ∧ 2 * (wait_for_human Wcfg2 Wworld1 5).ticks ≤ 5 + 1
    ∧ scrape_keyword_on_site_auto_resume Wcfg2 2 5 Wworld1
        = ⟨[], 0, (wait_for_human Wcfg2 Wworld1 5).ticks⟩ := by
  have h := C2_wait_termination Wcfg2 Wworld1 5 2 (by decide) (fun _ => rfl)
    (fun _ => show container_text_present Wcfg2 "captcha" = false by decide)
    (by decide)
  exact ⟨h.2.1, h.2.2.1, h.2.2.2.1, h.2.2.2.2⟩

/-- C4: with a positive page budget, if no next-page candidate yields an
advance on the first page, the driver extracts exactly that one page and
stops normally, whatever the budget. -/
theorem C4_pagination_stops_after_one_page (cfg : SiteCfg) (world : World)
    (pages : Nat) (hp : 1 ≤ pages)
    (hadv : (attempt_next (world.find_next 0) cfg.next_button).2 = false) :
    paginate cfg world pages
      = (parse_products_from_html (world.page_soup 0) cfg, 1) := by
  unfold paginate
  rw [paginate_go, if_pos (by omega : (0:Nat) < pages)]
  simp [hadv]

/-- C4 witness: the unblocked fixture world whose next-button lookups find
only a hidden element and a raising element without an href, under a page
budget of 5. -/
theorem C4_witness :
    paginate Wcfg2 Wworld2 5
      = (parse_products_from_html (Wworld2.page_soup 0) Wcfg2, 1) :=
  C4_pagination_stops_after_one_page Wcfg2 Wworld2 5 (by decide) (by decide)

/-- C5: per pagination iteration the advance search performs at most one
page-advancing interaction (and none when it reports failure), and it
stops at the first successful candidate: candidates after a successful
prefix are never examined. -/
theorem C5_one_advance_per_page :
    (∀ (find : String → Option (List NodeBeh)) (sels : List String),
        (attempt_next find sels).1.length ≤ 1
        ∧ ((attempt_next find sels).2 = false → (attempt_next find sels).1 = []))
    ∧ (∀ (find : String → Option (List NodeBeh)) (s1 s2 : List String),
        (attempt_next find s1).2 = true →
        attempt_next find (s1 ++ s2) = attempt_next find s1) :=
  ⟨fun find sels => attempt_next_spec find sels, attempt_next_stops_at_first⟩

/-- C5 witness: a lookup whose first selector already advances. -/
theorem C5_witness :
    (attempt_next Wfind ["x", "y"]).1.length ≤ 1
    ∧ attempt_next Wfind (["x"] ++ ["y"]) = attempt_next Wfind ["x"] :=
  ⟨(C5_one_advance_per_page.1 Wfind ["x", "y"]).1,
   C5_one_advance_per_page.2 Wfind ["x"] ["y"] (by decide)⟩

/-- C9 counterexample: an unexpected fault in the session body is NOT
caught at an outer boundary — `main` calls the session outside any `try`
(line 360) and the session has `try`/`finally` with no `except`
(lines 196–302) — so the fault leaves `main` unhandled and no output file
is written, refuting the claim at this input. -/
theorem C9_counterexample :
    (main_tail (Except.error (Fault.unexpected "boom"))).unhandled
      = some (Fault.unexpected "boom")
    ∧ (main_tail (Except.error (Fault.unexpected "boom"))).csv_written
      = none :=
  ⟨rfl, rfl⟩

/-- C9 amended: the browser resource is released on every exit path (the
`finally`), and a session that returns normally always yields a written
(possibly headers-only) output file and an operator message; but an
unexpected session fault propagates unhandled after the cleanup, and then
no output file is produced. -/
theorem C9_amended_boundary (session : Except Fault SessionResult) :
    (session_with_cleanup session).1 = true
    ∧ (∀ f, session = .error f →
        (main_tail session).unhandled = some f
        ∧ (main_tail session).csv_written = none
        ∧ (main_tail session).browser_released = true)
    ∧ (∀ res, session = .ok res →
        (main_tail session).unhandled = none
        ∧ (main_tail session).csv_written = some (save_to_csv res.collected)
        ∧ (main_tail session).message ≠ none
        ∧ (main_tail session).browser_released = true) := by
  refine ⟨rfl, ?_, ?_⟩
  · rintro f rfl
    exact ⟨rfl, rfl, rfl⟩
  · rintro res rfl
    exact ⟨rfl, rfl, by simp [main_tail, session_with_cleanup], rfl⟩

/-- C9 witness: a session returning zero records still writes the
headers-only file, shows a message, and releases the browser. -/
theorem C9_witness :
    (main_tail (Except.ok ⟨[], 0, 0⟩)).unhandled = none
    ∧ (main_tail (Except.ok ⟨[], 0, 0⟩)).csv_written = some (save_to_csv [])
    ∧ (main_tail (Except.ok ⟨[], 0, 0⟩)).message ≠ none
    ∧ (main_tail (Except.ok ⟨[], 0, 0⟩)).browser_released = true :=
  (C9_amended_boundary (Except.ok ⟨[], 0, 0⟩)).2.2 ⟨[], 0, 0⟩ rfl

end Scraper
